import Mathlib

/-!
Shallow embedding of the trumpet-iq Proficiency Scoring & Progression Engine.

The source file `public/scripts/ProficiencyCalculator.js` contains two
revisions of the class `ProficiencyCalculator`; they are embedded here as the
namespaces `PC1` (first variant, lines 14-174) and `PC2` (second variant,
lines 212-411).  JavaScript numbers are modelled by real numbers; `Math.exp`
is `Real.exp` and `Math.sqrt` is `Real.sqrt`.  Default arguments of the
JavaScript functions are passed explicitly at every call site, exactly as the
source's call sites resolve them.
-/

namespace TrumpetIQ

/-- Session metrics tuple handed to `calculatePerformance`
(`{accuracy, avgSpeed, coverage, consistency}`); the source's destructuring
defaults `coverage = 0.5` and `consistency = 0.5` are supplied by callers. -/
structure Metrics where
  accuracy : ℝ
  avgSpeed : ℝ
  coverage : ℝ
  consistency : ℝ

/-- The browser `localStorage`, modelled as an association list of
string keys to string values. -/
def LocalStorage := List (String × String)

/-- Embeds `localStorage.getItem(key)`: the first binding of `key`, if any. -/
def getItem (store : LocalStorage) (key : String) : Option String :=
  (store.find? (fun p => p.1 == key)).map (fun p => p.2)

/-- Embeds `ProficiencyCalculator.isBeginnerMode` (second variant, lines 216-218):
`localStorage.getItem('transposition-enabled') !== 'true'`. -/
def isBeginnerMode (store : LocalStorage) : Bool :=
  getItem store "transposition-enabled" != some "true"

namespace PC1

/-- First variant `calculatePerformance` (lines 24-40): weighted composite of
accuracy 0.50, normalized speed 0.20, coverage 0.20, consistency 0.10 with a
3-second speed baseline, clamped to [0,1]. -/
noncomputable def calculatePerformance (m : Metrics) : ℝ :=
  let baselineSpeed : ℝ := 3.0
  let normSpeed := 1 - min (m.avgSpeed / baselineSpeed) 1
  let performance :=
    0.50 * m.accuracy + 0.20 * normSpeed + 0.20 * m.coverage + 0.10 * m.consistency
  min (max performance 0) 1

/-- First variant `updateProficiency` (lines 51-54): EMA
`prevScore * (1 - alpha) + performance * alpha`. -/
noncomputable def updateProficiency (prevScore performance alpha : ℝ) : ℝ :=
  prevScore * (1 - alpha) + performance * alpha

/-- First variant `applyDecay` (lines 65-70): identity for
`daysSincePractice <= 0`, otherwise `score * Math.exp(-decayRate * days)`. -/
noncomputable def applyDecay (score daysSincePractice decayRate : ℝ) : ℝ :=
  if daysSincePractice ≤ 0 then score
  else score * Real.exp (-(decayRate * daysSincePractice))

/-- First variant `calculateNewProficiency` (lines 81-92): performance, then
EMA smoothing, then decay (smooth-then-decay), clamped to [0,1].  The inner
`applyDecay` call uses the default `decayRate = 0.02`. -/
noncomputable def calculateNewProficiency (prevScore : ℝ) (m : Metrics)
    (daysSincePractice alpha : ℝ) : ℝ :=
  let performance := calculatePerformance m
  let smoothed := updateProficiency prevScore performance alpha
  let decayed := applyDecay smoothed daysSincePractice 0.02
  min (max decayed 0) 1

end PC1

namespace PC2

/-- Second variant `calculatePerformance` (lines 229-265).  The beginner-mode
flag (read from `localStorage` in the source) is the explicit argument `b`.
Beginner: baseline 5s, weights 0.70/0.10/0.15/0.05, result boosted by 1.3 and
capped at 1.  Advanced: baseline 3s, weights 0.80/0.20, results at or above
0.85 boosted by 1.15 and capped at 1.  Final clamp to [0,1]. -/
noncomputable def calculatePerformance (b : Bool) (m : Metrics) : ℝ :=
  let baselineSpeed : ℝ := if b then 5.0 else 3.0
  let normSpeed := 1 - min (m.avgSpeed / baselineSpeed) 1
  let performance :=
    if b then
      min ((0.70 * m.accuracy + 0.10 * normSpeed + 0.15 * m.coverage +
            0.05 * m.consistency) * 1.3) 1.0
    else
      let p := 0.80 * m.accuracy + 0.20 * normSpeed
      if 0.85 ≤ p then min (p * 1.15) 1.0 else p
  min (max performance 0) 1

/-- Second variant `calculatePerformance` with the ambient `localStorage`
passed explicitly: the source reads `isBeginnerMode()` inside the body. -/
noncomputable def calculatePerformanceStore (store : LocalStorage) (m : Metrics) : ℝ :=
  calculatePerformance (isBeginnerMode store) m

/-- Second variant `updateProficiency` (lines 276-285): ignores its `alpha`
argument and uses the mode-dependent learning rate 0.40 (beginner) or
0.70 (advanced). -/
noncomputable def updateProficiency (b : Bool) (prevScore performance alpha : ℝ) : ℝ :=
  let learningRate : ℝ := if b then 0.40 else 0.70
  prevScore * (1 - learningRate) + performance * learningRate

/-- Second variant `applyDecay` (lines 296-307): identity for
`daysSincePractice <= 0`, otherwise exponential decay with the actual rate
0.01 in beginner mode and the `decayRate` argument otherwise. -/
noncomputable def applyDecay (b : Bool) (score daysSincePractice decayRate : ℝ) : ℝ :=
  if daysSincePractice ≤ 0 then score
  else
    let actualDecayRate : ℝ := if b then 0.01 else decayRate
    score * Real.exp (-(actualDecayRate * daysSincePractice))

/-- Second variant `calculateNewProficiency` (lines 318-329): performance,
then decay of the prior score (default `decayRate = 0.02`), then EMA
smoothing (decay-then-smooth), clamped to [0,1]. -/
noncomputable def calculateNewProficiency (b : Bool) (prevScore : ℝ) (m : Metrics)
    (daysSincePractice alpha : ℝ) : ℝ :=
  let performance := calculatePerformance b m
  let decayed := applyDecay b prevScore daysSincePractice 0.02
  let smoothed := updateProficiency b decayed performance alpha
  min (max smoothed 0) 1

end PC2

/-- Written from the specification's words (§4.2, decay-then-smooth), for
comparison against the code:
`clamp(decay(prior, daysElapsed) * (1 - alpha) + performance * alpha)`, with
the first variant's performance evaluator and the default decay rate 0.02. -/
noncomputable def decayThenSmoothSpec (prevScore : ℝ) (m : Metrics)
    (daysSincePractice alpha : ℝ) : ℝ :=
  min (max (PC1.applyDecay prevScore daysSincePractice 0.02 * (1 - alpha) +
    PC1.calculatePerformance m * alpha) 0) 1

/-- Embeds `ProficiencyCalculator.calculateConsistency` (identical in both variants):
one minus the standard deviation of the recent accuracies divided by 0.3,
floored at 0; 0.5 when fewer than two data points are available. -/
noncomputable def calculateConsistency (recentAccuracies : List ℝ) : ℝ :=
  if recentAccuracies.length < 2 then 0.5
  else
    let n : ℝ := recentAccuracies.length
    let mean := recentAccuracies.sum / n
    let variance := ((recentAccuracies.map (fun v => (v - mean) ^ 2)).sum) / n
    let stdDev := Real.sqrt variance
    max 0 (1 - stdDev / 0.3)

/-- Embeds `ProficiencyCalculator.calculateCoverage` (identical in both variants):
fraction of the possible notes practiced, capped at 1; 0.5 when the
denominator is 0. -/
noncomputable def calculateCoverage (uniqueNotesPracticed totalPossibleNotes : ℕ) : ℝ :=
  if totalPossibleNotes = 0 then 0.5
  else min ((uniqueNotesPracticed : ℝ) / (totalPossibleNotes : ℝ)) 1

/-- Embeds `ProficiencyCalculator.toDisplayScore`: `Math.round(proficiency * 100)`
(round half toward positive infinity, as Mathlib's `round`). -/
noncomputable def toDisplayScore (proficiency : ℝ) : ℤ :=
  round (proficiency * 100)

/-- Band record returned by `getProficiencyBand`. -/
structure Band where
  level : ℕ
  name : String
  description : String
  deriving DecidableEq

/-- Embeds `ProficiencyCalculator.getProficiencyBand` (identical in both variants):
fixed 5-level partition at 0.2/0.4/0.6/0.8. -/
noncomputable def getProficiencyBand (score : ℝ) : Band :=
  if score < 0.2 then ⟨1, "Early Learning", "Needs guided help"⟩
  else if score < 0.4 then ⟨2, "Developing", "Getting the basics"⟩
  else if score < 0.6 then ⟨3, "Functional", "Can play most notes"⟩
  else if score < 0.8 then ⟨4, "Independent", "Smooth transitions"⟩
  else ⟨5, "Mastered", "Automatic accuracy"⟩

namespace TranspositionProficiency

/-- One recorded session, as pushed onto `sessionHistory` by
`TranspositionProficiency.recordSession` (lines 165-173).  Timestamps are
modelled as integer milliseconds since the epoch. -/
structure SessionRecord where
  timestamp : ℤ
  accuracy : ℝ
  rawPerformance : ℝ
  weightedPerformance : ℝ
  difficulty : String
  proficiency : ℝ
  mode : String

/-- The persisted per-track record returned by
`TranspositionProficiency.getData` (lines 40-59). -/
structure ProficiencyData where
  instrument : String
  key : String
  proficiencyScore : ℝ
  lastPractice : ℤ
  sessionHistory : List SessionRecord
  notesCovered : Finset String
  createdAt : ℤ

/-- The session input consumed by `recordSession`.  `avgSpeed` keeps the
source's `sessionData.avgSpeed || 2.0` falsy fallback: an absent value is
modelled as 0, which like `undefined` falls back to 2.0. -/
structure SessionData where
  score : ℝ
  total : ℝ
  avgSpeed : ℝ
  notesPracticed : List String
  difficulty : String
  mode : String

/-- The persisted store: `localStorage` restricted to the tracker's record
keys, with values already parsed into `ProficiencyData`. -/
def Store := String → Option ProficiencyData

/-- Embeds `TranspositionProficiency.getKey` (lines 33-35). -/
def getKey (userId instrument key : String) : String :=
  "transposition_" ++ userId ++ "_" ++ instrument ++ "_" ++ key

/-- The fresh record seeded by `getData` when nothing is stored:
`proficiencyScore 0.2`, empty history, empty coverage set, both timestamps
`now`. -/
def freshData (instrument key : String) (now : ℤ) : ProficiencyData :=
  { instrument := instrument
    key := key
    proficiencyScore := 0.2
    lastPractice := now
    sessionHistory := []
    notesCovered := ∅
    createdAt := now }

/-- Embeds `TranspositionProficiency.getData` (lines 40-59): return the stored
record, or seed a fresh one when the key is absent.  This level assumes the
stored payload is parseable; `getDataRaw` below embeds the raw payload level
including the `JSON.parse` error path of line 56. -/
def getData (store : Store) (userId instrument key : String) (now : ℤ) :
    ProficiencyData :=
  match store (getKey userId instrument key) with
  | none => freshData instrument key now
  | some parsed => parsed

/-- Embeds `TranspositionProficiency.saveData` (lines 64-71): store the record under
the track's storage key. -/
def saveData (store : Store) (userId instrument key : String)
    (data : ProficiencyData) : Store :=
  fun k => if k = getKey userId instrument key then some data else store k

/-- Embeds `TranspositionProficiency.LEVEL_WEIGHTS` (lines 23-28). -/
noncomputable def LEVEL_WEIGHTS : String → Option ℝ := fun difficulty =>
  if difficulty = "basic" then some 1.0
  else if difficulty = "beginner" then some 1.5
  else if difficulty = "intermediate" then some 2.5
  else if difficulty = "advanced" then some 4.0
  else none

/-- Embeds `TranspositionProficiency.calculateWeightedProficiency` (lines 80-90):
`rawScore * (weight / maxWeight)` with the `|| 1.0` fallback for unknown
difficulties and `maxWeight = LEVEL_WEIGHTS['advanced']` (= 4.0, the key is
always present, so the `getD` default is never taken). -/
noncomputable def calculateWeightedProficiency (rawScore : ℝ) (difficulty : String) : ℝ :=
  let weight := (LEVEL_WEIGHTS difficulty).getD 1.0
  let maxWeight := (LEVEL_WEIGHTS "advanced").getD 1.0
  let normalizedWeight := weight / maxWeight
  rawScore * normalizedWeight

/-- Milliseconds in a day, the source's `1000 * 60 * 60 * 24`. -/
def msPerDay : ℤ := 1000 * 60 * 60 * 24

/-- Embeds `Math.floor((now - lastPractice) / 86400000)`: floor division of the
millisecond difference. -/
def daysBetween (lastPractice now : ℤ) : ℤ :=
  Int.fdiv (now - lastPractice) msPerDay

/-- The pure state transition performed by
`TranspositionProficiency.recordSession` (lines 101-201) on the loaded
record: days elapsed, session accuracy, coverage union, consistency over the
last 9 recorded accuracies plus the current one, raw performance
(second-variant calculator, beginner flag `b`), CEFR weighting, the
decay-then-smooth proficiency update with the weighted performance
substituted for accuracy, and the 30-entry history cap. -/
noncomputable def recordSessionUpdate (b : Bool) (data : ProficiencyData)
    (sd : SessionData) (now : ℤ) : ProficiencyData :=
  let daysSince := daysBetween data.lastPractice now
  let accuracy : ℝ := if 0 < sd.total then sd.score / sd.total else 0
  let notesCovered := data.notesCovered ∪ sd.notesPracticed.toFinset
  let coverage := calculateCoverage notesCovered.card 36
  let recentAccuracies :=
    ((data.sessionHistory.drop (data.sessionHistory.length - 9)).map
      (fun s => s.accuracy)) ++ [accuracy]
  let consistency := calculateConsistency recentAccuracies
  let avgSpeed : ℝ := if sd.avgSpeed = 0 then 2.0 else sd.avgSpeed
  let metrics : Metrics := ⟨accuracy, avgSpeed, coverage, consistency⟩
  let rawPerformance := PC2.calculatePerformance b metrics
  let weightedPerformance := calculateWeightedProficiency rawPerformance sd.difficulty
  let newProficiency :=
    PC2.calculateNewProficiency b data.proficiencyScore
      ⟨weightedPerformance, avgSpeed, coverage, consistency⟩ (daysSince : ℝ) 0.15
  let sessionRecord : SessionRecord :=
    ⟨now, accuracy, rawPerformance, weightedPerformance, sd.difficulty,
      newProficiency, sd.mode⟩
  let history := data.sessionHistory ++ [sessionRecord]
  let history := if 30 < history.length then history.drop (history.length - 30) else history
  { data with
      proficiencyScore := newProficiency
      lastPractice := now
      sessionHistory := history
      notesCovered := notesCovered }

/-- Embeds `TranspositionProficiency.recordSession` at the store level: load (or
seed), update, save. -/
noncomputable def recordSession (b : Bool) (store : Store)
    (userId instrument key : String) (sd : SessionData) (now : ℤ) : Store :=
  let data := getData store userId instrument key now
  let newData := recordSessionUpdate b data sd now
  saveData store userId instrument key newData

/-- The result record of `TranspositionProficiency.getCurrentProficiency`
(lines 206-228). -/
structure CurrentProficiency where
  proficiencyScore : ℝ
  proficiencyDisplay : ℤ
  band : Band
  daysSinceLastPractice : ℤ
  totalSessions : ℕ
  notesCovered : ℕ

/-- The decayed competency computed by `getCurrentProficiency` from a loaded
record: `applyDecay(score, daysSince)` with the default rate 0.02 (second
variant calculator, beginner flag `b`). -/
noncomputable def currentCompetencyOf (b : Bool) (data : ProficiencyData) (now : ℤ) : ℝ :=
  PC2.applyDecay b data.proficiencyScore ((daysBetween data.lastPractice now : ℤ) : ℝ) 0.02

/-- Embeds `TranspositionProficiency.getCurrentProficiency` (lines 206-228), with
the ambient store threaded explicitly: it loads the record, applies decay
for display, and performs no write — the returned store is the input store. -/
noncomputable def getCurrentProficiency (b : Bool) (store : Store)
    (userId instrument key : String) (now : ℤ) : Store × CurrentProficiency :=
  let data := getData store userId instrument key now
  let currentProficiency := currentCompetencyOf b data now
  (store,
    { proficiencyScore := currentProficiency
      proficiencyDisplay := toDisplayScore currentProficiency
      band := getProficiencyBand currentProficiency
      daysSinceLastPractice := daysBetween data.lastPractice now
      totalSessions := data.sessionHistory.length
      notesCovered := data.notesCovered.card })

end TranspositionProficiency

namespace UserProficiency

/-- The persisted global record returned by `UserProficiency.getUserData`
(`part_004`, lines 16-35). -/
structure UserData where
  proficiencyScore : ℝ
  lastPractice : ℤ
  sessionHistory : List TranspositionProficiency.SessionRecord
  notesCovered : Finset String
  createdAt : ℤ

/-- The store of persisted `UserData` records keyed by `proficiency_<userId>`. -/
def UserStore := String → Option UserData

/-- The fresh record seeded by `getUserData` for a new user. -/
def freshUserData (now : ℤ) : UserData :=
  { proficiencyScore := 0.2
    lastPractice := now
    sessionHistory := []
    notesCovered := ∅
    createdAt := now }

/-- Embeds `UserProficiency.getUserData` (`part_004`, lines 16-35): return the
stored record, or seed a fresh one when the key is absent. -/
def getUserData (store : UserStore) (userId : String) (now : ℤ) : UserData :=
  match store ("proficiency_" ++ userId) with
  | none => freshUserData now
  | some parsed => parsed

end UserProficiency

namespace TranspositionProficiency

/-- A raw persisted payload under a storage key: `localStorage` holds
strings, and a stored string either parses (`JSON.parse` succeeds, yielding
a record) or is corrupt (`JSON.parse` throws a `SyntaxError`).  The string
is modelled by its parse outcome. -/
inductive RawValue where
  | parsed (data : ProficiencyData)
  | corrupt

/-- The raw `localStorage` for the tracker's record keys, before parsing. -/
def RawStore := String → Option RawValue

/-- Embeds `TranspositionProficiency.getData` (lines 40-59) at the raw
payload level, including the unguarded `JSON.parse` of line 56: a missing
key seeds a fresh record, a parseable payload is returned, and a corrupt
payload throws (modelled as `Except.error`). -/
def getDataRaw (store : RawStore) (userId instrument key : String) (now : ℤ) :
    Except Unit ProficiencyData :=
  match store (getKey userId instrument key) with
  | none => Except.ok (freshData instrument key now)
  | some (RawValue.parsed parsed) => Except.ok parsed
  | some RawValue.corrupt => Except.error ()

end TranspositionProficiency

namespace UserProficiency

/-- A raw persisted payload for the global tracker: parseable or corrupt. -/
inductive RawUserValue where
  | parsed (data : UserData)
  | corrupt

/-- The raw `localStorage` for the global tracker's keys, before parsing. -/
def RawUserStore := String → Option RawUserValue

/-- Embeds `UserProficiency.getUserData` (`part_004`, lines 16-35) at the
raw payload level, including the unguarded `JSON.parse` of line 31: a
missing key seeds a fresh record, a parseable payload is returned, and a
corrupt payload throws (modelled as `Except.error`). -/
def getUserDataRaw (store : RawUserStore) (userId : String) (now : ℤ) :
    Except Unit UserData :=
  match store ("proficiency_" ++ userId) with
  | none => Except.ok (freshUserData now)
  | some (RawUserValue.parsed parsed) => Except.ok parsed
  | some RawUserValue.corrupt => Except.error ()

end UserProficiency

/-- A raw scoring event: `markCorrect()` or `markIncorrect()`. -/
inductive ScoringEvent where
  | correct
  | incorrect
  deriving DecidableEq

/-- Embeds `AdvancedMarathonScoring` (gameLogic.js lines 897 onward): counter state.
Counts are naturals; derived scores are rationals. -/
structure AdvancedMarathonScoring where
  correctAnswers : ℕ
  totalAnswers : ℕ
  difficulty : String

namespace AdvancedMarathonScoring

/-- Constructor state: zero counters. -/
def init (difficulty : String) : AdvancedMarathonScoring :=
  ⟨0, 0, difficulty⟩

/-- Embeds `levelWeights` of `AdvancedMarathonScoring`. -/
def levelWeights : String → Option ℚ := fun difficulty =>
  if difficulty = "basic" then some 1.0
  else if difficulty = "beginner" then some 1.2
  else if difficulty = "intermediate" then some 1.5
  else if difficulty = "advanced" then some 2.0
  else none

/-- Embeds `modeWeight = 1.2` (marathon has pressure). -/
def modeWeight : ℚ := 1.2

/-- Embeds `maxNotesForProficiency = 30`. -/
def maxNotesForProficiency : ℕ := 30

/-- Embeds `markCorrect()`: increments both counters. -/
def markCorrect (s : AdvancedMarathonScoring) : AdvancedMarathonScoring :=
  { s with correctAnswers := s.correctAnswers + 1, totalAnswers := s.totalAnswers + 1 }

/-- Embeds `markIncorrect()`: increments only the total. -/
def markIncorrect (s : AdvancedMarathonScoring) : AdvancedMarathonScoring :=
  { s with totalAnswers := s.totalAnswers + 1 }

/-- Embeds `getTotalPoints()`: 100 per correct answer. -/
def getTotalPoints (s : AdvancedMarathonScoring) : ℚ :=
  (s.correctAnswers : ℚ) * 100

/-- Embeds `getProficiencyScore()` (lines 915-926): accuracy over at most the first
30 notes — correct and total each independently capped at 30 — times level
weight times mode weight; 0 when no notes were answered. -/
def getProficiencyScore (s : AdvancedMarathonScoring) : ℚ :=
  let levelWeight := (levelWeights s.difficulty).getD 1.0
  let notesToConsider := min s.totalAnswers maxNotesForProficiency
  if notesToConsider = 0 then 0
  else
    let cappedCorrect := min s.correctAnswers maxNotesForProficiency
    let accuracy := ((cappedCorrect : ℚ) / (notesToConsider : ℚ)) * 100
    accuracy * levelWeight * modeWeight

/-- Replay a list of scoring events from a state. -/
def run (s : AdvancedMarathonScoring) (events : List ScoringEvent) :
    AdvancedMarathonScoring :=
  events.foldl (fun t e => match e with
    | .correct => markCorrect t
    | .incorrect => markIncorrect t) s

end AdvancedMarathonScoring

/-- Embeds `BeginnerMarathonScoring` (`part_003`): counter state. -/
structure BeginnerMarathonScoring where
  correctAnswers : ℕ
  totalAnswers : ℕ
  difficulty : String

namespace BeginnerMarathonScoring

/-- Constructor state: zero counters. -/
def init (difficulty : String) : BeginnerMarathonScoring :=
  ⟨0, 0, difficulty⟩

/-- Embeds `levelWeights` of `BeginnerMarathonScoring`. -/
def levelWeights : String → Option ℚ := fun difficulty =>
  if difficulty = "basic" then some 1.0
  else if difficulty = "beginner" then some 1.2
  else if difficulty = "intermediate" then some 1.5
  else if difficulty = "advanced" then some 2.0
  else none

/-- Embeds `modeWeight = 1.2`. -/
def modeWeight : ℚ := 1.2

/-- Embeds `markCorrect()`: increments both counters. -/
def markCorrect (s : BeginnerMarathonScoring) : BeginnerMarathonScoring :=
  { s with correctAnswers := s.correctAnswers + 1, totalAnswers := s.totalAnswers + 1 }

/-- Embeds `markIncorrect()`: increments only the total. -/
def markIncorrect (s : BeginnerMarathonScoring) : BeginnerMarathonScoring :=
  { s with totalAnswers := s.totalAnswers + 1 }

/-- Embeds `getProficiencyScore()` (`part_003`, lines 45-56): same capping rule as
the advanced tier. -/
def getProficiencyScore (s : BeginnerMarathonScoring) : ℚ :=
  let levelWeight := (levelWeights s.difficulty).getD 1.0
  let notesToConsider := min s.totalAnswers 30
  if notesToConsider = 0 then 0
  else
    let cappedCorrect := min s.correctAnswers 30
    let accuracy := ((cappedCorrect : ℚ) / (notesToConsider : ℚ)) * 100
    accuracy * levelWeight * modeWeight

end BeginnerMarathonScoring

/-- Embeds `BeginnerSpeedModeScoring` (`part_001`): counter state plus the
configured difficulty and per-note interval in milliseconds. -/
structure BeginnerSpeedModeScoring where
  correctAnswers : ℕ
  wrongAnswers : ℕ
  difficulty : String
  intervalSpeed : ℚ

namespace BeginnerSpeedModeScoring

/-- Constructor state: zero counters. -/
def init (difficulty : String) (intervalSpeed : ℚ) : BeginnerSpeedModeScoring :=
  ⟨0, 0, difficulty, intervalSpeed⟩

/-- Embeds `levelWeights` of `BeginnerSpeedModeScoring`. -/
def levelWeights : String → Option ℚ := fun difficulty =>
  if difficulty = "basic" then some 1.0
  else if difficulty = "beginner" then some 1.2
  else if difficulty = "intermediate" then some 1.5
  else if difficulty = "advanced" then some 2.0
  else none

/-- Embeds `modeWeight = 1.5` (speed mode is the strongest fluency signal). -/
def modeWeight : ℚ := 1.5

/-- Embeds `markCorrect()`. -/
def markCorrect (s : BeginnerSpeedModeScoring) : BeginnerSpeedModeScoring :=
  { s with correctAnswers := s.correctAnswers + 1 }

/-- Embeds `markIncorrect()`. -/
def markIncorrect (s : BeginnerSpeedModeScoring) : BeginnerSpeedModeScoring :=
  { s with wrongAnswers := s.wrongAnswers + 1 }

/-- Embeds `getTotalPoints()` (`part_001`, lines 29-31): 100 per correct answer. -/
def getTotalPoints (s : BeginnerSpeedModeScoring) : ℚ :=
  (s.correctAnswers : ℚ) * 100

/-- Embeds `getStars()` (`part_001`, lines 35-52): thresholds 1500/2500 scaled by
`1000 / intervalSpeed`. -/
def getStars (s : BeginnerSpeedModeScoring) : ℕ :=
  let points := getTotalPoints s
  let scaleFactor := 1000 / s.intervalSpeed
  let threshold1 := 1500 * scaleFactor
  let threshold2 := 2500 * scaleFactor
  if threshold2 ≤ points then 3
  else if threshold1 ≤ points then 2
  else 1

/-- Embeds `getProficiencyScore()` (`part_001`, lines 56-65):
`max(0, 100*correct - 50*wrong) * levelWeight * modeWeight`. -/
def getProficiencyScore (s : BeginnerSpeedModeScoring) : ℚ :=
  let levelWeight := (levelWeights s.difficulty).getD 1.0
  let correctPoints := (s.correctAnswers : ℚ) * 100
  let wrongPenalty := (s.wrongAnswers : ℚ) * 50
  let rawProficiency := max 0 (correctPoints - wrongPenalty)
  rawProficiency * levelWeight * modeWeight

/-- The result shape of `getScores()` (`part_001`, lines 67-75). -/
structure Scores where
  displayScore : ℚ
  proficiencyScore : ℚ
  stars : ℕ
  correctAnswers : ℕ
  wrongAnswers : ℕ
  deriving DecidableEq

/-- Embeds `getScores()` (`part_001`, lines 67-75): the display score is
`getTotalPoints()`, the proficiency score carries the penalty. -/
def getScores (s : BeginnerSpeedModeScoring) : Scores :=
  { displayScore := getTotalPoints s
    proficiencyScore := getProficiencyScore s
    stars := getStars s
    correctAnswers := s.correctAnswers
    wrongAnswers := s.wrongAnswers }

/-- Replay a list of scoring events from a state. -/
def run (s : BeginnerSpeedModeScoring) (events : List ScoringEvent) :
    BeginnerSpeedModeScoring :=
  events.foldl (fun t e => match e with
    | .correct => markCorrect t
    | .incorrect => markIncorrect t) s

end BeginnerSpeedModeScoring

/-! ## Theorems -/

/-- C8: identity under no elapsed time and no new evidence — for every
competency value `x` and learning rate `alpha`, `applyDecay x 0 r = x` and
`updateProficiency x x alpha = x` hold in both calculator variants (the
second variant substitutes its mode-dependent learning rate for `alpha`,
which leaves the identity intact). -/
theorem decay_and_smooth_identity (x alpha decayRate : ℝ) (b : Bool) :
    PC1.applyDecay x 0 decayRate = x ∧ PC1.updateProficiency x x alpha = x ∧
    PC2.applyDecay b x 0 decayRate = x ∧ PC2.updateProficiency b x x alpha = x := by
  refine ⟨?_, ?_, ?_, ?_⟩
  · simp [PC1.applyDecay]
  · simp only [PC1.updateProficiency]; ring
  · simp [PC2.applyDecay]
  · cases b <;> simp only [PC2.updateProficiency] <;> norm_num <;> ring

/-- C6: CEFR-style weighting equality — a perfect raw performance at the
`basic` tier (weight 1.0) and a 0.4 raw performance at the `intermediate`
tier (weight 2.5) yield the same weighted (max-weight-normalized)
proficiency contribution, namely 0.25. -/
theorem weighted_proficiency_equality :
    TranspositionProficiency.calculateWeightedProficiency 1.0 "basic" =
      TranspositionProficiency.calculateWeightedProficiency 0.4 "intermediate" ∧
    TranspositionProficiency.calculateWeightedProficiency 1.0 "basic" = 0.25 := by
  have hb : TranspositionProficiency.LEVEL_WEIGHTS "basic" = some 1.0 := rfl
  have hi : TranspositionProficiency.LEVEL_WEIGHTS "intermediate" = some 2.5 := rfl
  have ha : TranspositionProficiency.LEVEL_WEIGHTS "advanced" = some 4.0 := rfl
  constructor <;>
    norm_num [TranspositionProficiency.calculateWeightedProficiency, hb, hi, ha,
      Option.getD_some]

/-- C7: a missing persisted record is never an error — `getData` (and
likewise `getUserData`) seeds a fresh record with competency 0.2, empty
session history and empty coverage set for every track key with no stored
data.  A corrupt persisted payload, however, IS an error: the unguarded
`JSON.parse` throws instead of reseeding, exhibited here at concrete stores
holding a corrupt payload under the looked-up key. -/
theorem getData_missing_seeds_and_corrupt_errors :
    (TranspositionProficiency.getDataRaw
        (fun k => if k = TranspositionProficiency.getKey "u1" "Bb" "C"
          then some TranspositionProficiency.RawValue.corrupt else none)
        "u1" "Bb" "C" 0 = Except.error ()) ∧
    (UserProficiency.getUserDataRaw
        (fun k => if k = "proficiency_" ++ "u1"
          then some UserProficiency.RawUserValue.corrupt else none)
        "u1" 0 = Except.error ()) ∧
    (∀ (store : TranspositionProficiency.RawStore)
        (userId instrument key : String) (now : ℤ),
      store (TranspositionProficiency.getKey userId instrument key) = none →
      TranspositionProficiency.getDataRaw store userId instrument key now =
        Except.ok
          { instrument := instrument
            key := key
            proficiencyScore := 0.2
            lastPractice := now
            sessionHistory := []
            notesCovered := ∅
            createdAt := now }) ∧
    (∀ (ustore : UserProficiency.RawUserStore) (userId : String) (now : ℤ),
      ustore ("proficiency_" ++ userId) = none →
      UserProficiency.getUserDataRaw ustore userId now =
        Except.ok
          { proficiencyScore := 0.2
            lastPractice := now
            sessionHistory := []
            notesCovered := ∅
            createdAt := now }) := by
  refine ⟨rfl, rfl, ?_, ?_⟩
  · intro store userId instrument key now h
    unfold TranspositionProficiency.getDataRaw
    rw [h]
    rfl
  · intro ustore userId now h
    unfold UserProficiency.getUserDataRaw
    rw [h]
    rfl

/-- Witness for C7's universally quantified seeding conjuncts at a concrete
empty store. -/
theorem getData_missing_seeds_and_corrupt_errors_witness :
    ((fun _ => none : TranspositionProficiency.RawStore)
      (TranspositionProficiency.getKey "u1" "Bb" "C") = none) ∧
    ((fun _ => none : UserProficiency.RawUserStore) ("proficiency_" ++ "u1") = none) ∧
    (TranspositionProficiency.getDataRaw (fun _ => none) "u1" "Bb" "C" 0 =
      Except.ok
        { instrument := "Bb"
          key := "C"
          proficiencyScore := 0.2
          lastPractice := 0
          sessionHistory := []
          notesCovered := ∅
          createdAt := 0 }) ∧
    (UserProficiency.getUserDataRaw (fun _ => none) "u1" 0 =
      Except.ok
        { proficiencyScore := 0.2
          lastPractice := 0
          sessionHistory := []
          notesCovered := ∅
          createdAt := 0 }) :=
  ⟨rfl, rfl,
    getData_missing_seeds_and_corrupt_errors.2.2.1 _ "u1" "Bb" "C" 0 rfl,
    getData_missing_seeds_and_corrupt_errors.2.2.2 _ "u1" 0 rfl⟩

/-- C9: `getCurrentProficiency` never mutates persisted state — the store it
returns is the input store, and a second read at the same instant returns a
value identical to the first. -/
theorem getCurrentProficiency_pure (b : Bool) (store : TranspositionProficiency.Store)
    (userId instrument key : String) (now : ℤ) :
    (TranspositionProficiency.getCurrentProficiency b store userId instrument key now).1 =
      store ∧
    (TranspositionProficiency.getCurrentProficiency b
        (TranspositionProficiency.getCurrentProficiency b store userId instrument key now).1
        userId instrument key now).2 =
      (TranspositionProficiency.getCurrentProficiency b store userId instrument key now).2 :=
  ⟨rfl, rfl⟩

/-- C4: marathon proficiency caps correct and total counts at 30 — for every
marathon session (both tiers) with more than 30 total answers, the
proficiency score is `min(correct,30)/min(total,30) * 100 * levelWeight *
1.2`, not the full-session ratio. -/
theorem marathon_capped_accuracy (s : AdvancedMarathonScoring) (t : BeginnerMarathonScoring)
    (hs : 30 < s.totalAnswers) (ht : 30 < t.totalAnswers) :
    AdvancedMarathonScoring.getProficiencyScore s =
      ((min s.correctAnswers 30 : ℕ) : ℚ) / ((min s.totalAnswers 30 : ℕ) : ℚ) * 100 *
        ((AdvancedMarathonScoring.levelWeights s.difficulty).getD 1.0) * 1.2 ∧
    BeginnerMarathonScoring.getProficiencyScore t =
      ((min t.correctAnswers 30 : ℕ) : ℚ) / ((min t.totalAnswers 30 : ℕ) : ℚ) * 100 *
        ((BeginnerMarathonScoring.levelWeights t.difficulty).getD 1.0) * 1.2 := by
  have hmins : min s.totalAnswers 30 = 30 := min_eq_right (Nat.le_of_lt hs)
  have hmint : min t.totalAnswers 30 = 30 := min_eq_right (Nat.le_of_lt ht)
  constructor
  · simp only [AdvancedMarathonScoring.getProficiencyScore,
      AdvancedMarathonScoring.maxNotesForProficiency, AdvancedMarathonScoring.modeWeight,
      hmins]
    norm_num
  · simp only [BeginnerMarathonScoring.getProficiencyScore,
      BeginnerMarathonScoring.modeWeight, hmint]
    norm_num

/-- Witness for C4 at 45 total answers with 40 correct (both tiers). -/
theorem marathon_capped_accuracy_witness :
    30 < (AdvancedMarathonScoring.mk 40 45 "basic").totalAnswers ∧
    30 < (BeginnerMarathonScoring.mk 40 45 "basic").totalAnswers ∧
    (AdvancedMarathonScoring.getProficiencyScore (AdvancedMarathonScoring.mk 40 45 "basic") =
      ((min (AdvancedMarathonScoring.mk 40 45 "basic").correctAnswers 30 : ℕ) : ℚ) /
        ((min (AdvancedMarathonScoring.mk 40 45 "basic").totalAnswers 30 : ℕ) : ℚ) * 100 *
        ((AdvancedMarathonScoring.levelWeights
          (AdvancedMarathonScoring.mk 40 45 "basic").difficulty).getD 1.0) * 1.2 ∧
    BeginnerMarathonScoring.getProficiencyScore (BeginnerMarathonScoring.mk 40 45 "basic") =
      ((min (BeginnerMarathonScoring.mk 40 45 "basic").correctAnswers 30 : ℕ) : ℚ) /
        ((min (BeginnerMarathonScoring.mk 40 45 "basic").totalAnswers 30 : ℕ) : ℚ) * 100 *
        ((BeginnerMarathonScoring.levelWeights
          (BeginnerMarathonScoring.mk 40 45 "basic").difficulty).getD 1.0) * 1.2) :=
  ⟨by decide, by decide,
    marathon_capped_accuracy (AdvancedMarathonScoring.mk 40 45 "basic")
      (BeginnerMarathonScoring.mk 40 45 "basic") (by decide) (by decide)⟩

/-- C10: whenever at least 30 answers are correct (in any marathon tier),
the proficiency score is the maximal `100 * levelWeight * 1.2`, independent
of how many incorrect answers occurred, because correct and total counts are
capped at 30 independently. -/
theorem marathon_max_with_30_correct (s : AdvancedMarathonScoring)
    (t : BeginnerMarathonScoring)
    (hs1 : 30 ≤ s.correctAnswers) (hs2 : s.correctAnswers ≤ s.totalAnswers)
    (ht1 : 30 ≤ t.correctAnswers) (ht2 : t.correctAnswers ≤ t.totalAnswers) :
    AdvancedMarathonScoring.getProficiencyScore s =
      100 * ((AdvancedMarathonScoring.levelWeights s.difficulty).getD 1.0) * 1.2 ∧
    BeginnerMarathonScoring.getProficiencyScore t =
      100 * ((BeginnerMarathonScoring.levelWeights t.difficulty).getD 1.0) * 1.2 := by
  have hsc : min s.correctAnswers 30 = 30 := min_eq_right hs1
  have hst : min s.totalAnswers 30 = 30 := min_eq_right (le_trans hs1 hs2)
  have htc : min t.correctAnswers 30 = 30 := min_eq_right ht1
  have htt : min t.totalAnswers 30 = 30 := min_eq_right (le_trans ht1 ht2)
  constructor
  · simp only [AdvancedMarathonScoring.getProficiencyScore,
      AdvancedMarathonScoring.maxNotesForProficiency, AdvancedMarathonScoring.modeWeight,
      hsc, hst]
    norm_num
  · simp only [BeginnerMarathonScoring.getProficiencyScore,
      BeginnerMarathonScoring.modeWeight, htc, htt]
    norm_num

/-- Witness for C10: 30 correct out of 100 total answers (advanced tier) and
a flawless 30 of 30 (beginner tier) both score the capped maximum. -/
theorem marathon_max_with_30_correct_witness :
    30 ≤ (AdvancedMarathonScoring.mk 30 100 "basic").correctAnswers ∧
    (AdvancedMarathonScoring.mk 30 100 "basic").correctAnswers ≤
      (AdvancedMarathonScoring.mk 30 100 "basic").totalAnswers ∧
    30 ≤ (BeginnerMarathonScoring.mk 30 30 "basic").correctAnswers ∧
    (BeginnerMarathonScoring.mk 30 30 "basic").correctAnswers ≤
      (BeginnerMarathonScoring.mk 30 30 "basic").totalAnswers ∧
    (AdvancedMarathonScoring.getProficiencyScore (AdvancedMarathonScoring.mk 30 100 "basic") =
      100 * ((AdvancedMarathonScoring.levelWeights
        (AdvancedMarathonScoring.mk 30 100 "basic").difficulty).getD 1.0) * 1.2 ∧
    BeginnerMarathonScoring.getProficiencyScore (BeginnerMarathonScoring.mk 30 30 "basic") =
      100 * ((BeginnerMarathonScoring.levelWeights
        (BeginnerMarathonScoring.mk 30 30 "basic").difficulty).getD 1.0) * 1.2) :=
  ⟨by decide, by decide, by decide, by decide,
    marathon_max_with_30_correct (AdvancedMarathonScoring.mk 30 100 "basic")
      (BeginnerMarathonScoring.mk 30 30 "basic")
      (by decide) (by decide) (by decide) (by decide)⟩

/-- Replaying events accumulates exactly the counts of correct and incorrect
marks (helper for the speed-mode scoring claims). -/
theorem speed_run_counts (events : List ScoringEvent) :
    ∀ s : BeginnerSpeedModeScoring,
      (BeginnerSpeedModeScoring.run s events).correctAnswers =
        s.correctAnswers + events.count ScoringEvent.correct ∧
      (BeginnerSpeedModeScoring.run s events).wrongAnswers =
        s.wrongAnswers + events.count ScoringEvent.incorrect ∧
      (BeginnerSpeedModeScoring.run s events).difficulty = s.difficulty := by
  induction events with
  | nil => intro s; simp [BeginnerSpeedModeScoring.run]
  | cons e rest ih =>
    intro s
    cases e with
    | correct =>
      have h := ih (BeginnerSpeedModeScoring.markCorrect s)
      simp only [BeginnerSpeedModeScoring.run, List.foldl_cons] at h ⊢
      rw [h.1, h.2.1, h.2.2]
      simp [BeginnerSpeedModeScoring.markCorrect, List.count_cons]
      omega
    | incorrect =>
      have h := ih (BeginnerSpeedModeScoring.markIncorrect s)
      simp only [BeginnerSpeedModeScoring.run, List.foldl_cons] at h ⊢
      rw [h.1, h.2.1, h.2.2]
      simp [BeginnerSpeedModeScoring.markIncorrect, List.count_cons]
      omega

/-- C5 counterexample: after one correct and one incorrect answer, the speed
display score is 100 — the 50-point penalty the claim ascribes to the
display score (which would yield 50) only affects the proficiency score. -/
theorem speed_displayScore_ignores_penalty :
    (BeginnerSpeedModeScoring.getScores
        (BeginnerSpeedModeScoring.run (BeginnerSpeedModeScoring.init "basic" 2000)
          [ScoringEvent.correct, ScoringEvent.incorrect])).displayScore = 100 ∧
    max (0 : ℚ) (100 * 1 - 50 * 1) = 50 ∧ (100 : ℚ) ≠ 50 := by
  refine ⟨?_, by norm_num, by norm_num⟩
  norm_num [BeginnerSpeedModeScoring.getScores, BeginnerSpeedModeScoring.getTotalPoints,
    BeginnerSpeedModeScoring.run, BeginnerSpeedModeScoring.init,
    BeginnerSpeedModeScoring.markCorrect, BeginnerSpeedModeScoring.markIncorrect]

/-- C5 amended: for every sequence of `markCorrect`/`markIncorrect` events,
the display score in `getScores` is 100 points per correct answer with no
penalty, while the proficiency score is
`max(0, 100*correct - 50*incorrect) * levelWeight * 1.5`. -/
theorem speed_scores_formula (difficulty : String) (intervalSpeed : ℚ)
    (events : List ScoringEvent) :
    (BeginnerSpeedModeScoring.getScores
        (BeginnerSpeedModeScoring.run
          (BeginnerSpeedModeScoring.init difficulty intervalSpeed) events)).displayScore =
      100 * (events.count ScoringEvent.correct : ℚ) ∧
    (BeginnerSpeedModeScoring.getScores
        (BeginnerSpeedModeScoring.run
          (BeginnerSpeedModeScoring.init difficulty intervalSpeed) events)).proficiencyScore =
      max 0 (100 * (events.count ScoringEvent.correct : ℚ) -
          50 * (events.count ScoringEvent.incorrect : ℚ)) *
        ((BeginnerSpeedModeScoring.levelWeights difficulty).getD 1.0) * 1.5 := by
  have h := speed_run_counts events (BeginnerSpeedModeScoring.init difficulty intervalSpeed)
  constructor
  · simp only [BeginnerSpeedModeScoring.getScores, BeginnerSpeedModeScoring.getTotalPoints]
    rw [h.1]
    norm_num [BeginnerSpeedModeScoring.init]
    ring
  · simp only [BeginnerSpeedModeScoring.getScores,
      BeginnerSpeedModeScoring.getProficiencyScore, BeginnerSpeedModeScoring.modeWeight]
    rw [h.1, h.2.1, h.2.2]
    norm_num [BeginnerSpeedModeScoring.init]
    ring_nf
    exact Or.inl trivial

/-- C3 counterexample: the second-variant `calculatePerformance` reads the
ambient `localStorage` flag — on the metrics
`{accuracy 0.5, avgSpeed 0, coverage 0.5, consistency 0.5}` an empty store
(beginner mode) yields 0.715 while a store with
`transposition-enabled = 'true'` (advanced mode) yields 0.6. -/
theorem calculatePerformance_depends_on_store :
    PC2.calculatePerformanceStore [] ⟨0.5, 0, 0.5, 0.5⟩ ≠
      PC2.calculatePerformanceStore [("transposition-enabled", "true")] ⟨0.5, 0, 0.5, 0.5⟩ := by
  have h1 : isBeginnerMode [] = true := rfl
  have h2 : isBeginnerMode [("transposition-enabled", "true")] = false := rfl
  unfold PC2.calculatePerformanceStore
  rw [h1, h2]
  unfold PC2.calculatePerformance
  norm_num [min_def, max_def]

/-- C3 amended: `calculatePerformance` is deterministic given the metrics
and the single ambient `localStorage` key it reads — two stores agreeing on
`transposition-enabled` produce identical performance values for identical
metrics. -/
theorem calculatePerformance_deterministic (s t : LocalStorage) (m : Metrics)
    (h : getItem s "transposition-enabled" = getItem t "transposition-enabled") :
    PC2.calculatePerformanceStore s m = PC2.calculatePerformanceStore t m := by
  unfold PC2.calculatePerformanceStore isBeginnerMode
  rw [h]

/-- Witness for the amended C3 at two concrete stores that agree on the
`transposition-enabled` key. -/
theorem calculatePerformance_deterministic_witness :
    getItem [("volume", "high")] "transposition-enabled" =
      getItem [] "transposition-enabled" ∧
    PC2.calculatePerformanceStore [("volume", "high")] ⟨1, 1, 1, 1⟩ =
      PC2.calculatePerformanceStore [] ⟨1, 1, 1, 1⟩ :=
  ⟨rfl, calculatePerformance_deterministic [("volume", "high")] [] ⟨1, 1, 1, 1⟩ rfl⟩

/-- C1: ordering of decay and smoothing.  The first-variant
`calculateNewProficiency` smooths before decaying and therefore falls
strictly below the specification's decay-then-smooth value at prior 0,
metrics `{accuracy 1, avgSpeed 3, coverage 0, consistency 0}`, one elapsed
day and `alpha = 0.15`; the second variant coincides with the
decay-then-smooth formula (with its mode-dependent learning rate in place
of `alpha`) at every input. -/
theorem calculateNewProficiency_ordering :
    (PC1.calculateNewProficiency 0 ⟨1, 3, 0, 0⟩ 1 0.15 <
      decayThenSmoothSpec 0 ⟨1, 3, 0, 0⟩ 1 0.15) ∧
    (∀ (b : Bool) (prevScore : ℝ) (m : Metrics) (d alpha : ℝ),
      PC2.calculateNewProficiency b prevScore m d alpha =
        min (max (PC2.applyDecay b prevScore d 0.02 * (1 - if b then (0.40 : ℝ) else 0.70) +
          PC2.calculatePerformance b m * (if b then (0.40 : ℝ) else 0.70)) 0) 1) := by
  constructor
  · have hperf : PC1.calculatePerformance ⟨1, 3, 0, 0⟩ = 0.5 := by
      unfold PC1.calculatePerformance
      norm_num [min_def, max_def]
    have hcond : ¬((1 : ℝ) ≤ 0) := by norm_num
    unfold PC1.calculateNewProficiency decayThenSmoothSpec PC1.applyDecay
      PC1.updateProficiency
    rw [hperf]
    simp only [if_neg hcond]
    generalize hEdef : Real.exp (-(0.02 * 1)) = E
    have hE0 : (0 : ℝ) < E := hEdef ▸ Real.exp_pos _
    have hE1 : E < 1 := by
      rw [← hEdef, Real.exp_lt_one_iff]
      norm_num
    have l0 : (0 : ℝ) ≤ ((0 : ℝ) * (1 - 0.15) + 0.5 * 0.15) * E := by nlinarith
    have l1 : ((0 : ℝ) * (1 - 0.15) + 0.5 * 0.15) * E ≤ 1 := by nlinarith
    have r0 : (0 : ℝ) ≤ (0 : ℝ) * E * (1 - 0.15) + 0.5 * 0.15 := by nlinarith
    have r1 : (0 : ℝ) * E * (1 - 0.15) + 0.5 * 0.15 ≤ 1 := by nlinarith
    rw [max_eq_left l0, min_eq_left l1, max_eq_left r0, min_eq_left r1]
    nlinarith
  · intro b prevScore m d alpha
    rfl

/-- The final `Math.min(Math.max(x, 0), 1)` clamp keeps every value in
the unit interval. -/
theorem clamp01_bounds (x : ℝ) : 0 ≤ min (max x 0) 1 ∧ min (max x 0) 1 ≤ 1 :=
  ⟨le_min (le_max_right x 0) zero_le_one, min_le_right _ _⟩

/-- The second-variant `calculateNewProficiency` always lands in [0,1]. -/
theorem calculateNewProficiency2_bounds (b : Bool) (prevScore : ℝ) (m : Metrics)
    (d alpha : ℝ) :
    0 ≤ PC2.calculateNewProficiency b prevScore m d alpha ∧
      PC2.calculateNewProficiency b prevScore m d alpha ≤ 1 := by
  unfold PC2.calculateNewProficiency
  exact clamp01_bounds _

/-- The second-variant `applyDecay` with the default rate 0.02 maps [0,1]
into [0,1]: the decay factor is an exponential of a nonpositive argument. -/
theorem applyDecay2_bounds (b : Bool) (x d : ℝ) (hx0 : 0 ≤ x) (hx1 : x ≤ 1) :
    0 ≤ PC2.applyDecay b x d 0.02 ∧ PC2.applyDecay b x d 0.02 ≤ 1 := by
  unfold PC2.applyDecay
  split
  · exact ⟨hx0, hx1⟩
  · rename_i hd
    have hdpos : (0 : ℝ) < d := lt_of_not_le hd
    have hrpos : (0 : ℝ) ≤ if b then 0.01 else 0.02 := by
      cases b <;> norm_num
    have hexp_le : Real.exp (-((if b then (0.01 : ℝ) else 0.02) * d)) ≤ 1 := by
      rw [Real.exp_le_one_iff]
      nlinarith
    have hexp_pos : (0 : ℝ) ≤ Real.exp (-((if b then (0.01 : ℝ) else 0.02) * d)) :=
      (Real.exp_pos _).le
    exact ⟨mul_nonneg hx0 hexp_pos, by nlinarith⟩

/-- Helper: `recordSessionUpdate` stores a clamped proficiency, hence one in [0,1]. -/
theorem recordSessionUpdate_bounds (b : Bool)
    (data : TranspositionProficiency.ProficiencyData)
    (sd : TranspositionProficiency.SessionData) (now : ℤ) :
    0 ≤ (TranspositionProficiency.recordSessionUpdate b data sd now).proficiencyScore ∧
      (TranspositionProficiency.recordSessionUpdate b data sd now).proficiencyScore ≤ 1 := by
  unfold TranspositionProficiency.recordSessionUpdate
  exact calculateNewProficiency2_bounds _ _ _ _ _

/-- Folding `recordSessionUpdate` over any session list preserves the unit
interval. -/
theorem foldl_recordSessionUpdate_bounds (b : Bool)
    (sessions : List (TranspositionProficiency.SessionData × ℤ)) :
    ∀ d : TranspositionProficiency.ProficiencyData,
      0 ≤ d.proficiencyScore → d.proficiencyScore ≤ 1 →
      0 ≤ (sessions.foldl
          (fun d p => TranspositionProficiency.recordSessionUpdate b d p.1 p.2)
          d).proficiencyScore ∧
        (sessions.foldl
          (fun d p => TranspositionProficiency.recordSessionUpdate b d p.1 p.2)
          d).proficiencyScore ≤ 1 := by
  induction sessions with
  | nil => intro d h0 h1; exact ⟨h0, h1⟩
  | cons p rest ih =>
    intro d h0 h1
    simp only [List.foldl_cons]
    exact ih _ (recordSessionUpdate_bounds b d p.1 p.2).1
      (recordSessionUpdate_bounds b d p.1 p.2).2

/-- C2: the competency of a tracked record stays in [0,1] — the freshly
seeded record, the record stored after any sequence of `recordSession`
updates, and the decayed competency the read path (`getCurrentProficiency`)
computes from it all lie in the unit interval. -/
theorem competency_unit_interval (b : Bool) (instrument key : String) (t0 now : ℤ)
    (sessions : List (TranspositionProficiency.SessionData × ℤ)) :
    (0 ≤ (TranspositionProficiency.freshData instrument key t0).proficiencyScore ∧
      (TranspositionProficiency.freshData instrument key t0).proficiencyScore ≤ 1) ∧
    (0 ≤ (sessions.foldl
        (fun d p => TranspositionProficiency.recordSessionUpdate b d p.1 p.2)
        (TranspositionProficiency.freshData instrument key t0)).proficiencyScore ∧
      (sessions.foldl
        (fun d p => TranspositionProficiency.recordSessionUpdate b d p.1 p.2)
        (TranspositionProficiency.freshData instrument key t0)).proficiencyScore ≤ 1) ∧
    (0 ≤ TranspositionProficiency.currentCompetencyOf b
        (sessions.foldl
          (fun d p => TranspositionProficiency.recordSessionUpdate b d p.1 p.2)
          (TranspositionProficiency.freshData instrument key t0)) now ∧
      TranspositionProficiency.currentCompetencyOf b
        (sessions.foldl
          (fun d p => TranspositionProficiency.recordSessionUpdate b d p.1 p.2)
          (TranspositionProficiency.freshData instrument key t0)) now ≤ 1) := by
  have hseed : 0 ≤ (TranspositionProficiency.freshData instrument key t0).proficiencyScore ∧
      (TranspositionProficiency.freshData instrument key t0).proficiencyScore ≤ 1 := by
    constructor <;> norm_num [TranspositionProficiency.freshData]
  have hfinal := foldl_recordSessionUpdate_bounds b sessions
    (TranspositionProficiency.freshData instrument key t0) hseed.1 hseed.2
  refine ⟨hseed, hfinal, ?_⟩
  unfold TranspositionProficiency.currentCompetencyOf
  exact applyDecay2_bounds b _ _ hfinal.1 hfinal.2

end TrumpetIQ
